import Mathlib

/-!
Shallow embedding of the commit-message generator (src/main.py) and proofs
about its diff filtering, diff bundling, retry loop and CLI driver.

External effects are made explicit:
* the git repository is a list of modified-file entries, each carrying the
  diff text the repository would return (or the error it would raise);
* each HTTP POST attempt is given its outcome (a network-level exception,
  or a response with status, body text and parsed JSON data);
* console prints, POST requests issued and backoff sleeps are recorded in
  trace structures returned by the embedded functions.
-/

/-- Configuration constant MODEL_NAME from src/main.py. -/
def MODEL_NAME : String := "llama3"

/-- Configuration constant API_ENDPOINT from src/main.py. -/
def API_ENDPOINT : String := "http://localhost:11434/v1/chat/completions"

/-- Configuration constant API_KEY from src/main.py. -/
def API_KEY : String := "ollama"

/-- Configuration constant MAX_RETRIES from src/main.py. -/
def MAX_RETRIES : Nat := 3

/-- Configuration constant BASE_DELAY from src/main.py (seconds). -/
def BASE_DELAY : Nat := 1

/-- The fixed system prompt string SYSTEM_PROMPT from src/main.py. -/
def SYSTEM_PROMPT : String :=
  "\nYou are an expert software developer helping to write clear, concise, and informative commit messages.\nAnalyze the git diff changes and generate a commit message that follows conventional commit format.\n\nGuidelines:\n- Use conventional commit format: <type>(<scope>): <description>\n- Common types: feat, fix, docs, style, refactor, test, chore\n- Keep the description under 50 characters\n- Provide a detailed body explaining WHAT changed and WHY (if needed)\n- Focus on the actual changes, not the process\n- Be specific about what was added, removed, or modified\n\nExample format:\nfeat(auth): add user login functionality\n\n- Implement JWT token generation\n- Add login endpoint at /api/auth/login\n- Include input validation for credentials\n"

/-- Embedding of the Python str.split call of src/main.py line 58: split
the character list at every newline character and rebuild each piece.
Batteries List.splitOn has exactly the Python single-separator semantics,
including the single empty piece for the empty string. -/
def splitLines (s : String) : List String :=
  (s.data.splitOn '\n').map String.mk

/-- Embedding of Python str.startswith: the pattern's characters are a
prefix of the line's characters. -/
def strStartsWith (line pat : String) : Bool :=
  pat.data.isPrefixOf line.data

/-- Embedding of the Python str.strip call of src/main.py line 119: drop
leading and trailing whitespace characters. -/
def strTrim (s : String) : String :=
  String.mk (((s.data.dropWhile Char.isWhitespace).reverse.dropWhile
    Char.isWhitespace).reverse)

/-- The per-line filter of get_git_diffs (src/main.py lines 60-63): a line is
kept exactly when one of the seven startswith tests succeeds. -/
def keepLine (line : String) : Bool :=
  strStartsWith line "+" || strStartsWith line "-" ||
    strStartsWith line "@@" || strStartsWith line "diff --git" ||
    strStartsWith line "---" || strStartsWith line "+++" ||
    strStartsWith line "index "

/-- The preprocessing loop of get_git_diffs (src/main.py lines 57-64): split
the diff text on newlines and keep the lines passing keepLine, in order. -/
def processDiff (diff_text : String) : List String :=
  (splitLines diff_text).filter keepLine

instance : DecidableEq (Except String String) := fun a b =>
  match a, b with
  | Except.ok x, Except.ok y =>
    if h : x = y then isTrue (by rw [h]) else isFalse (by intro hc; cases hc; exact h rfl)
  | Except.error x, Except.error y =>
    if h : x = y then isTrue (by rw [h]) else isFalse (by intro hc; cases hc; exact h rfl)
  | Except.ok _, Except.error _ => isFalse (by intro hc; cases hc)
  | Except.error _, Except.ok _ => isFalse (by intro hc; cases hc)

/-- One modified file as reported by the repository: its path and either the
diff text git returns for it or the message of the exception raised while
retrieving it (the except-branch of src/main.py lines 70-72). -/
structure FileEntry where
  a_path : String
  diff : Except String String
deriving DecidableEq

/-- The message object reached by the JSON path choices[i].message in a
parsed 200 response body. -/
structure RespMessage where
  content : String
deriving DecidableEq

/-- One element of the choices array of a parsed 200 response body. -/
structure Choice where
  message : RespMessage
deriving DecidableEq

/-- The parsed JSON body of a 200 response (response.json() in src/main.py
line 117): choices is none when the key is absent from the object. -/
structure ResponseData where
  choices : Option (List Choice)
deriving DecidableEq

/-- The outcome of one HTTP POST attempt, supplied to the embedding:
reqException models a requests.exceptions.RequestException with its message;
response models a completed HTTP response with its status code, body text
and parsed JSON data (the data is only examined when the status is 200). -/
inductive HttpOutcome : Type where
  | reqException (msg : String)
  | response (status : Nat) (text : String) (data : ResponseData)
deriving DecidableEq

/-- A print made inside call_llm_api (src/main.py lines 121, 124, 127, 132,
135), identified by which print statement ran and its dynamic data. -/
inductive LogEvent : Type where
  | unexpectedFormat (data : ResponseData)
  | statusError (status : Nat) (text : String)
  | requestError (attempt : Nat) (msg : String)
  | retrying (delay : Nat)
  | allRetriesFailed
deriving DecidableEq

/-- A console print event. line is a print of that exact string; warnDiff is
the warning print of src/main.py line 71; apiLog wraps a print made inside
call_llm_api. -/
inductive OutputEvent : Type where
  | line (s : String)
  | warnDiff (path msg : String)
  | apiLog (e : LogEvent)
deriving DecidableEq

/-- Result of get_git_diffs: the returned bundle string plus the warning
prints emitted while building it. -/
structure ExtractResult where
  bundle : String
  warnings : List OutputEvent
deriving DecidableEq

/-- The accumulation loop of get_git_diffs (src/main.py lines 52-72):
returns the per-file blocks (in file order) and the warnings for files whose
diff retrieval raised. -/
def diffBlocks : List FileEntry → List String × List OutputEvent
  | [] => ([], [])
  | item :: rest =>
    let acc := diffBlocks rest
    match item.diff with
    | Except.error e => (acc.1, OutputEvent.warnDiff item.a_path e :: acc.2)
    | Except.ok diff_text =>
      let processed_diff := processDiff diff_text
      if processed_diff.isEmpty then acc
      else (("File: " ++ item.a_path ++ "\n" ++ String.intercalate "\n" processed_diff) :: acc.1,
            acc.2)

/-- get_git_diffs (src/main.py lines 44-74), with the repository state given
as the list of modified files: joins the per-file blocks with a blank line. -/
def get_git_diffs (files : List FileEntry) : ExtractResult :=
  let acc := diffBlocks files
  ⟨String.intercalate "\n\n" acc.1, acc.2⟩

/-- One role-tagged message of the request payload. -/
structure ChatMessage where
  role : String
  content : String
deriving DecidableEq

/-- The JSON payload built in call_llm_api (src/main.py lines 102-110). -/
structure Payload where
  model : String
  messages : List ChatMessage
  temperature : ℚ
  max_tokens : Nat
deriving DecidableEq

/-- One HTTP POST request as issued by requests.post in src/main.py line
114: target URL, JSON payload and headers. -/
structure PostRequest where
  url : String
  payload : Payload
  headers : List (String × String)
deriving DecidableEq

/-- The request call_llm_api sends on every attempt: headers from src/main.py
lines 97-100 (the Authorization value is empty when API_KEY is falsy) and
payload from lines 102-110. -/
def buildRequest (prompt : String) : PostRequest :=
  ⟨API_ENDPOINT,
   ⟨MODEL_NAME,
    [⟨"system", SYSTEM_PROMPT⟩, ⟨"user", prompt⟩],
    0.3, 500⟩,
   [("Content-Type", "application/json"),
    ("Authorization", if API_KEY = "" then "" else "Bearer " ++ API_KEY)]⟩

/-- Everything observable about one run of call_llm_api: the returned value,
the POST requests issued (in order), the backoff sleeps performed (in order,
in seconds) and the prints made (in order). -/
structure ApiTrace where
  result : Option String
  requests : List PostRequest
  sleeps : List Nat
  logs : List LogEvent
deriving DecidableEq

/-- The retry loop of call_llm_api (src/main.py lines 112-136). fuel is the
number of loop iterations left (call_llm_api starts it at MAX_RETRIES) and
attempt is the current loop index; the fuel-exhausted case is the code after
the for loop (lines 135-136). A 200 response with a non-empty choices array
returns the first choice's trimmed message content; a 200 response without
one prints and returns None; an exception or a non-200 status falls through
to the backoff, which sleeps BASE_DELAY * 2 ^ attempt seconds only while
attempt < MAX_RETRIES - 1 (line 130). -/
def callLoop (req : PostRequest) (outcomes : Nat → HttpOutcome) :
    Nat → Nat → ApiTrace
  | 0, _ => ⟨none, [], [], [LogEvent.allRetriesFailed]⟩
  | fuel + 1, attempt =>
    match outcomes attempt with
    | HttpOutcome.response status text data =>
      if status = 200 then
        match data.choices with
        | some (c :: _) => ⟨some (strTrim c.message.content), [req], [], []⟩
        | some [] => ⟨none, [req], [], [LogEvent.unexpectedFormat data]⟩
        | none => ⟨none, [req], [], [LogEvent.unexpectedFormat data]⟩
      else
        let rest := callLoop req outcomes fuel (attempt + 1)
        if attempt < MAX_RETRIES - 1 then
          ⟨rest.result, req :: rest.requests,
           BASE_DELAY * 2 ^ attempt :: rest.sleeps,
           LogEvent.statusError status text ::
             LogEvent.retrying (BASE_DELAY * 2 ^ attempt) :: rest.logs⟩
        else
          ⟨rest.result, req :: rest.requests, rest.sleeps,
           LogEvent.statusError status text :: rest.logs⟩
    | HttpOutcome.reqException msg =>
      let rest := callLoop req outcomes fuel (attempt + 1)
      if attempt < MAX_RETRIES - 1 then
        ⟨rest.result, req :: rest.requests,
         BASE_DELAY * 2 ^ attempt :: rest.sleeps,
         LogEvent.requestError attempt msg ::
           LogEvent.retrying (BASE_DELAY * 2 ^ attempt) :: rest.logs⟩
      else
        ⟨rest.result, req :: rest.requests, rest.sleeps,
         LogEvent.requestError attempt msg :: rest.logs⟩

/-- call_llm_api (src/main.py lines 93-136), with the HTTP outcome of each
attempt supplied as input: builds the headers and payload once and runs the
retry loop for MAX_RETRIES attempts starting at attempt 0. -/
def call_llm_api (prompt : String) (outcomes : Nat → HttpOutcome) : ApiTrace :=
  callLoop (buildRequest prompt) outcomes MAX_RETRIES 0

/-- True of the outcomes that make an attempt fall through to the next retry
slot: a request exception, or a response whose status is not 200. -/
def isRetryFailure : HttpOutcome → Bool
  | HttpOutcome.reqException _ => true
  | HttpOutcome.response status _ _ => status != 200

/-- The test of src/main.py line 118 on a parsed 200 body: the choices key
is present and its array is non-empty. -/
def hasUsableChoices (data : ResponseData) : Bool :=
  match data.choices with
  | some (_ :: _) => true
  | some [] => false
  | none => false

/-- The print emitted by a retry-failure outcome at the given attempt:
the non-200 print of src/main.py line 124 or the exception print of
line 127. -/
def failureEvent (attempt : Nat) : HttpOutcome → LogEvent
  | HttpOutcome.reqException msg => LogEvent.requestError attempt msg
  | HttpOutcome.response status text _ => LogEvent.statusError status text

/-- The user prompt built by generate_commit_message (src/main.py lines
81-87) around the diff bundle. -/
def buildUserPrompt (diffs : String) : String :=
  "\nPlease analyze the following git changes and generate an appropriate commit message:\n\n"
    ++ diffs ++
    "\n\nRemember to follow the conventional commit format and focus on the actual changes made.\n"

/-- generate_commit_message (src/main.py lines 77-90): builds the user
prompt and calls the API client. -/
def generate_commit_message (diffs : String) (outcomes : Nat → HttpOutcome) :
    ApiTrace :=
  call_llm_api (buildUserPrompt diffs) outcomes

/-- The external world of one run: whether the path names a valid git
repository, the modified files the repository reports, and the outcome of
each HTTP POST attempt. -/
structure Env where
  isRepo : Bool
  files : List FileEntry
  outcomes : Nat → HttpOutcome

/-- is_git_repository (src/main.py lines 36-41): true when constructing
git.Repo on the path succeeds, false when it raises
InvalidGitRepositoryError. -/
def is_git_repository (env : Env) : Bool :=
  env.isRepo

/-- The separator printed around the suggested message in src/main.py lines
162 and 164: the 50-character string of = signs. -/
def eqSeparator : String :=
  String.mk (List.replicate 50 '=')

/-- Everything observable about one run of main: the prints in order, the
POST requests issued, whether diff extraction ran, the user prompt built (if
any), and the process exit code. -/
structure MainTrace where
  prints : List OutputEvent
  requests : List PostRequest
  extracted : Bool
  prompt : Option String
  exitCode : Nat
deriving DecidableEq

/-- main (src/main.py lines 139-168), after argument parsing. Each early
return leaves exit code 0. The try/except of lines 155-168 never fires in
the embedding because the embedded generate_commit_message is total, so only
its try-branch is modelled. -/
def mainRun (env : Env) : MainTrace :=
  if is_git_repository env = false then
    ⟨[OutputEvent.line "Error: The specified path is not a valid git repository."],
     [], false, none, 0⟩
  else
    let ex := get_git_diffs env.files
    if ex.bundle = "" then
      ⟨ex.warnings ++ [OutputEvent.line "No changes detected in the repository."],
       [], true, none, 0⟩
    else
      let user_prompt := buildUserPrompt ex.bundle
      let t := call_llm_api user_prompt env.outcomes
      match t.result with
      | none =>
        ⟨ex.warnings ++ t.logs.map OutputEvent.apiLog ++
           [OutputEvent.line "No commit message generated."],
         t.requests, true, some user_prompt, 0⟩
      | some commit_message =>
        ⟨ex.warnings ++ t.logs.map OutputEvent.apiLog ++
           [OutputEvent.line "Suggested commit message:",
            OutputEvent.line eqSeparator,
            OutputEvent.line commit_message,
            OutputEvent.line eqSeparator],
         t.requests, true, some user_prompt, 0⟩

/-- The Diff Bundle as the spec describes it, for comparison with
get_git_diffs: one block per (path, diff text) pair whose filtered diff is
non-empty, in order, each block a File: path line followed by the filtered
lines, joined with a blank line. -/
def specBundle (files : List (String × String)) : String :=
  String.intercalate "\n\n"
    ((files.filter (fun p => !(processDiff p.2).isEmpty)).map
      (fun p => "File: " ++ p.1 ++ "\n" ++ String.intercalate "\n" (processDiff p.2)))

/-- Concrete run: every attempt answers HTTP 500. -/
def outcomesAll500 : Nat → HttpOutcome :=
  fun _ => HttpOutcome.response 500 "Internal Server Error" ⟨none⟩

/-- Concrete run: every attempt raises a connection error. -/
def outcomesAllExc : Nat → HttpOutcome :=
  fun _ => HttpOutcome.reqException "connection refused"

/-- Concrete parsed 200 body whose choices array is empty. -/
def dataNoChoices : ResponseData := ⟨some []⟩

/-- Concrete run: the first attempt gets a 200 response without a usable
choices array. -/
def outcomesMalformed : Nat → HttpOutcome :=
  fun _ => HttpOutcome.response 200 "ok" dataNoChoices

/-- Concrete parsed 200 body with one choice carrying padded content. -/
def dataFeat : ResponseData := ⟨some [⟨⟨"  feat: add X  "⟩⟩]⟩

/-- Concrete environment whose path is not a git repository. -/
def envInvalid : Env := ⟨false, [], fun _ => HttpOutcome.reqException "unused"⟩

/-- Concrete environment: a valid repository with no modified files. -/
def envNoChanges : Env := ⟨true, [], fun _ => HttpOutcome.reqException "unused"⟩

/-- Concrete environment: a valid repository with one changed file and a
successful first API attempt. -/
def envSuccess : Env :=
  ⟨true, [⟨"a.txt", Except.ok "+x"⟩],
   fun _ => HttpOutcome.response 200 "ok" dataFeat⟩

/-- Refined message object of a 200 body's choices element: content is none
when the object lacks a content key, in which case the lookup of
src/main.py line 119 raises KeyError. -/
structure RespMessageE where
  content : Option String
deriving DecidableEq

/-- Refined choices element: message is none when the element lacks a
message key (for example a 200 body whose choices array holds one empty
object), in which case the lookup of src/main.py line 119 raises
KeyError. -/
structure ChoiceE where
  message : Option RespMessageE
deriving DecidableEq

/-- Refined parsed 200 body: as ResponseData, but the choices elements may
lack the message.content path. ResponseData is the restriction of this type
to bodies on which the lookup of line 119 succeeds (callLoopE_refines shows
the two retry loops agree there); claims other than C3 only concern such
bodies. -/
structure ResponseDataE where
  choices : Option (List ChoiceE)
deriving DecidableEq

/-- The lookup choices[0].message.content of src/main.py line 119 on a
refined element: ok with the content string when the path exists, error
with the exception the line raises when a key is missing. -/
def extractContent : ChoiceE → Except String String
  | ⟨none⟩ => Except.error "KeyError: message"
  | ⟨some ⟨none⟩⟩ => Except.error "KeyError: content"
  | ⟨some ⟨some s⟩⟩ => Except.ok s

/-- Refined outcome of one HTTP POST attempt. -/
inductive HttpOutcomeE : Type where
  | reqException (msg : String)
  | response (status : Nat) (text : String) (data : ResponseDataE)
deriving DecidableEq

/-- How a call_llm_api run ends in the refined model: a normal return of
the optional message, or an exception escaping the function (the except
clause of src/main.py line 126 catches only RequestException, so a
KeyError from line 119 propagates, caught only by the handler of main
line 166). -/
inductive CallResultE : Type where
  | returns (v : Option String)
  | raises (e : String)
deriving DecidableEq

/-- Refined log event: as LogEvent, with the refined body type. -/
inductive LogEventE : Type where
  | unexpectedFormat (data : ResponseDataE)
  | statusError (status : Nat) (text : String)
  | requestError (attempt : Nat) (msg : String)
  | retrying (delay : Nat)
  | allRetriesFailed
deriving DecidableEq

/-- Refined trace of one call_llm_api run. -/
structure ApiTraceE where
  result : CallResultE
  requests : List PostRequest
  sleeps : List Nat
  logs : List LogEventE
deriving DecidableEq

/-- The retry loop of src/main.py lines 112-136 in the refined model: as
callLoop, except that on a 200 response with a non-empty choices array the
lookup of line 119 either returns the trimmed content or raises out of the
function. -/
def callLoopE (req : PostRequest) (outcomes : Nat → HttpOutcomeE) :
    Nat → Nat → ApiTraceE
  | 0, _ => ⟨CallResultE.returns none, [], [], [LogEventE.allRetriesFailed]⟩
  | fuel + 1, attempt =>
    match outcomes attempt with
    | HttpOutcomeE.response status text data =>
      if status = 200 then
        match data.choices with
        | some (c :: _) =>
          match extractContent c with
          | Except.ok s => ⟨CallResultE.returns (some (strTrim s)), [req], [], []⟩
          | Except.error e => ⟨CallResultE.raises e, [req], [], []⟩
        | some [] =>
          ⟨CallResultE.returns none, [req], [], [LogEventE.unexpectedFormat data]⟩
        | none =>
          ⟨CallResultE.returns none, [req], [], [LogEventE.unexpectedFormat data]⟩
      else
        let rest := callLoopE req outcomes fuel (attempt + 1)
        if attempt < MAX_RETRIES - 1 then
          ⟨rest.result, req :: rest.requests,
           BASE_DELAY * 2 ^ attempt :: rest.sleeps,
           LogEventE.statusError status text ::
             LogEventE.retrying (BASE_DELAY * 2 ^ attempt) :: rest.logs⟩
        else
          ⟨rest.result, req :: rest.requests, rest.sleeps,
           LogEventE.statusError status text :: rest.logs⟩
    | HttpOutcomeE.reqException msg =>
      let rest := callLoopE req outcomes fuel (attempt + 1)
      if attempt < MAX_RETRIES - 1 then
        ⟨rest.result, req :: rest.requests,
         BASE_DELAY * 2 ^ attempt :: rest.sleeps,
         LogEventE.requestError attempt msg ::
           LogEventE.retrying (BASE_DELAY * 2 ^ attempt) :: rest.logs⟩
      else
        ⟨rest.result, req :: rest.requests, rest.sleeps,
         LogEventE.requestError attempt msg :: rest.logs⟩

/-- call_llm_api (src/main.py lines 93-136) in the refined model. -/
def call_llm_apiE (prompt : String) (outcomes : Nat → HttpOutcomeE) : ApiTraceE :=
  callLoopE (buildRequest prompt) outcomes MAX_RETRIES 0

/-- Refined retry-failure test: an exception or a non-200 status. -/
def isRetryFailureE : HttpOutcomeE → Bool
  | HttpOutcomeE.reqException _ => true
  | HttpOutcomeE.response status _ _ => status != 200

/-- Refined failure print event of a retry-failure outcome. -/
def failureEventE (attempt : Nat) : HttpOutcomeE → LogEventE
  | HttpOutcomeE.reqException msg => LogEventE.requestError attempt msg
  | HttpOutcomeE.response status text _ => LogEventE.statusError status text

/-- True of an outcome that cannot make line 119 raise: an exception, a
non-200 status, or a 200 body whose choices value is absent, empty, or has
a first element carrying the message.content path. -/
def okOutcome : HttpOutcomeE → Bool
  | HttpOutcomeE.reqException _ => true
  | HttpOutcomeE.response status _ data =>
    if status = 200 then
      match data.choices with
      | some (c :: _) =>
        match extractContent c with
        | Except.ok _ => true
        | Except.error _ => false
      | some [] => true
      | none => true
    else true

/-- Injection of an unrefined choices element: the lookup path is present. -/
def toChoiceE (c : Choice) : ChoiceE := ⟨some ⟨some c.message.content⟩⟩

/-- Injection of an unrefined 200 body into the refined type. -/
def toDataE (d : ResponseData) : ResponseDataE :=
  ⟨Option.map (List.map toChoiceE) d.choices⟩

/-- Injection of an unrefined outcome into the refined type. -/
def toOutcomeE : HttpOutcome → HttpOutcomeE
  | HttpOutcome.reqException m => HttpOutcomeE.reqException m
  | HttpOutcome.response s t d => HttpOutcomeE.response s t (toDataE d)

/-- Injection of an unrefined log event into the refined type. -/
def toLogE : LogEvent → LogEventE
  | LogEvent.unexpectedFormat d => LogEventE.unexpectedFormat (toDataE d)
  | LogEvent.statusError s t => LogEventE.statusError s t
  | LogEvent.requestError a m => LogEventE.requestError a m
  | LogEvent.retrying d => LogEventE.retrying d
  | LogEvent.allRetriesFailed => LogEventE.allRetriesFailed

/-- Concrete refined 200 body whose choices array holds one empty object. -/
def dataBadChoice : ResponseDataE := ⟨some [⟨none⟩]⟩

/-- Concrete refined run: every attempt gets the 200 response whose choices
array holds one empty object. -/
def outcomesBadChoice : Nat → HttpOutcomeE :=
  fun _ => HttpOutcomeE.response 200 "ok" dataBadChoice

/-- Concrete refined run: every attempt times out. -/
def outcomesDownE : Nat → HttpOutcomeE :=
  fun _ => HttpOutcomeE.reqException "connection timed out"

/-- Claim C1: for every diff text, the Diff Extractor's filtering retains
exactly those lines that start with one of the prefixes +, -, @@,
diff --git, ---, +++, or index followed by a space, and discards every
other line, regardless of the order in which lines appear in the input. -/
theorem processDiff_retains_exactly (t l : String) :
    l ∈ processDiff t ↔
      l ∈ splitLines t ∧
        (strStartsWith l "+" = true ∨ strStartsWith l "-" = true ∨
          strStartsWith l "@@" = true ∨ strStartsWith l "diff --git" = true ∨
          strStartsWith l "---" = true ∨ strStartsWith l "+++" = true ∨
          strStartsWith l "index " = true) := by
  simp only [processDiff, List.mem_filter, keepLine, Bool.or_eq_true, or_assoc]

/-- Claim C10: for every diff text, the filtered lines are a sublist of the
original diff's lines: each retained line appears verbatim and in the same
relative order as in the input. -/
theorem processDiff_sublist (t : String) :
    (processDiff t).Sublist (splitLines t) :=
  List.filter_sublist (splitLines t)

/-- Helper: an attempt whose outcome is a retry failure (exception or
non-200 status) prints its error, performs the backoff sleep exactly when
more attempts remain, issues its one POST and otherwise behaves as the rest
of the loop. -/
theorem callLoop_retry_step (req : PostRequest) (outcomes : Nat → HttpOutcome)
    (fuel attempt : Nat) (hf : isRetryFailure (outcomes attempt) = true) :
    callLoop req outcomes (fuel + 1) attempt =
      ⟨(callLoop req outcomes fuel (attempt + 1)).result,
       req :: (callLoop req outcomes fuel (attempt + 1)).requests,
       (if attempt < MAX_RETRIES - 1 then [BASE_DELAY * 2 ^ attempt] else []) ++
         (callLoop req outcomes fuel (attempt + 1)).sleeps,
       failureEvent attempt (outcomes attempt) ::
         ((if attempt < MAX_RETRIES - 1 then
             [LogEvent.retrying (BASE_DELAY * 2 ^ attempt)]
           else []) ++
           (callLoop req outcomes fuel (attempt + 1)).logs)⟩ := by
  cases h : outcomes attempt with
  | reqException m =>
    by_cases hlt : attempt < MAX_RETRIES - 1 <;>
      simp [callLoop, h, failureEvent, hlt]
  | response s tx d =>
    rw [h] at hf
    simp only [isRetryFailure, bne_iff_ne, ne_eq] at hf
    by_cases hlt : attempt < MAX_RETRIES - 1 <;>
      simp [callLoop, h, failureEvent, hlt, hf]

/-- Helper: an attempt whose outcome is a 200 response with a non-empty
choices array returns the first choice's trimmed content at once. -/
theorem callLoop_success_step (req : PostRequest) (outcomes : Nat → HttpOutcome)
    (fuel attempt : Nat) (text : String) (data : ResponseData)
    (c : Choice) (cs : List Choice)
    (h : outcomes attempt = HttpOutcome.response 200 text data)
    (hc : data.choices = some (c :: cs)) :
    callLoop req outcomes (fuel + 1) attempt =
      ⟨some (strTrim c.message.content), [req], [], []⟩ := by
  simp [callLoop, h, hc]

/-- Helper: an attempt whose outcome is a 200 response without a usable
choices array prints the unexpected-format message and returns none at
once, with no sleep and no further request. -/
theorem callLoop_malformed_step (req : PostRequest) (outcomes : Nat → HttpOutcome)
    (fuel attempt : Nat) (text : String) (data : ResponseData)
    (h : outcomes attempt = HttpOutcome.response 200 text data)
    (hc : hasUsableChoices data = false) :
    callLoop req outcomes (fuel + 1) attempt =
      ⟨none, [req], [], [LogEvent.unexpectedFormat data]⟩ := by
  cases hch : data.choices with
  | none => simp [callLoop, h, hch]
  | some cs =>
    cases cs with
    | nil => simp [callLoop, h, hch]
    | cons c cs2 => simp [hasUsableChoices, hch] at hc

/-- Helper: the full trace of a run whose three attempts are all retry
failures: three POSTs, sleeps of 1 and 2 seconds after the first two
attempts only, then the terminal failure print and none. -/
theorem call_llm_all_fail_trace (prompt : String) (outcomes : Nat → HttpOutcome)
    (h0 : isRetryFailure (outcomes 0) = true)
    (h1 : isRetryFailure (outcomes 1) = true)
    (h2 : isRetryFailure (outcomes 2) = true) :
    call_llm_api prompt outcomes =
      ⟨none,
       [buildRequest prompt, buildRequest prompt, buildRequest prompt],
       [1, 2],
       [failureEvent 0 (outcomes 0), LogEvent.retrying 1,
        failureEvent 1 (outcomes 1), LogEvent.retrying 2,
        failureEvent 2 (outcomes 2), LogEvent.allRetriesFailed]⟩ := by
  have e : call_llm_api prompt outcomes =
      callLoop (buildRequest prompt) outcomes (2 + 1) 0 := rfl
  rw [e, callLoop_retry_step _ _ 2 0 h0]
  have e1 : callLoop (buildRequest prompt) outcomes 2 (0 + 1) =
      callLoop (buildRequest prompt) outcomes (1 + 1) 1 := rfl
  rw [e1, callLoop_retry_step _ _ 1 1 h1]
  have e2 : callLoop (buildRequest prompt) outcomes 1 (1 + 1) =
      callLoop (buildRequest prompt) outcomes (0 + 1) 2 := rfl
  rw [e2, callLoop_retry_step _ _ 0 2 h2]
  have e3 : callLoop (buildRequest prompt) outcomes 0 (2 + 1) =
      ⟨none, [], [], [LogEvent.allRetriesFailed]⟩ := rfl
  rw [e3]
  norm_num [MAX_RETRIES, BASE_DELAY]

/-- Helper: every request the retry loop issues is the one request built
before the loop. -/
theorem callLoop_requests_const (req : PostRequest) (outcomes : Nat → HttpOutcome) :
    ∀ fuel attempt r, r ∈ (callLoop req outcomes fuel attempt).requests → r = req := by
  intro fuel
  induction fuel with
  | zero =>
    intro attempt r hr
    simp [callLoop] at hr
  | succ n ih =>
    intro attempt r hr
    cases h : outcomes attempt with
    | reqException m =>
      by_cases hlt : attempt < MAX_RETRIES - 1
      · simp only [callLoop, h, hlt, if_true, List.mem_cons] at hr
        rcases hr with hr | hr
        · exact hr
        · exact ih (attempt + 1) r hr
      · simp only [callLoop, h, hlt, if_false, List.mem_cons] at hr
        rcases hr with hr | hr
        · exact hr
        · exact ih (attempt + 1) r hr
    | response s tx d =>
      by_cases hs : s = 200
      · subst hs
        cases hch : d.choices with
        | none =>
          simp only [callLoop, h, hch] at hr
          simp at hr
          exact hr
        | some cs =>
          cases cs with
          | nil =>
            simp only [callLoop, h, hch] at hr
            simp at hr
            exact hr
          | cons c cs2 =>
            simp only [callLoop, h, hch] at hr
            simp at hr
            exact hr
      · by_cases hlt : attempt < MAX_RETRIES - 1
        · simp only [callLoop, h] at hr
          rw [if_neg hs] at hr
          simp only [hlt, if_true, List.mem_cons] at hr
          rcases hr with hr | hr
          · exact hr
          · exact ih (attempt + 1) r hr
        · simp only [callLoop, h] at hr
          rw [if_neg hs] at hr
          simp only [hlt, if_false, List.mem_cons] at hr
          rcases hr with hr | hr
          · exact hr
          · exact ih (attempt + 1) r hr

/-- Claim C2 counterexample: a run in which all 3 attempts fail with HTTP
500 performs backoff sleeps of 1s and 2s only, for a total of 3 seconds,
not the claimed 1s, 2s, 4s totalling 7 seconds: src/main.py line 130 skips
the sleep after the final attempt, so the 4-second delay of attempt 2 never
happens. -/
theorem call_llm_api_backoff_counterexample :
    (∀ i, i < MAX_RETRIES → isRetryFailure (outcomesAll500 i) = true) ∧
    (call_llm_api "p" outcomesAll500).sleeps = [1, 2] ∧
    (call_llm_api "p" outcomesAll500).sleeps.sum = 3 ∧
    ¬ ((call_llm_api "p" outcomesAll500).sleeps = [1, 2, 4] ∧
        (call_llm_api "p" outcomesAll500).sleeps.sum = 7) :=
  ⟨fun _ _ => rfl, by decide, by decide, by decide⟩

/-- Claim C2 (amended): for every run in which all 3 API attempts fail, the
backoff sleep after attempt i is BASE_DELAY * 2 ^ i seconds for attempts 0
and 1 (1s then 2s), no backoff sleep occurs after the final attempt, the
total elapsed backoff is 1 + 2 = 3 seconds, and the client logs the
terminal failure message as its last print before returning absence, having
issued 3 POST requests. -/
theorem call_llm_api_all_fail (prompt : String) (outcomes : Nat → HttpOutcome)
    (h : ∀ i, i < MAX_RETRIES → isRetryFailure (outcomes i) = true) :
    (call_llm_api prompt outcomes).result = none ∧
    (call_llm_api prompt outcomes).sleeps = [BASE_DELAY * 2 ^ 0, BASE_DELAY * 2 ^ 1] ∧
    (call_llm_api prompt outcomes).sleeps.sum = 3 ∧
    (call_llm_api prompt outcomes).logs.getLast? = some LogEvent.allRetriesFailed ∧
    (call_llm_api prompt outcomes).requests.length = 3 := by
  have h0 := h 0 (by norm_num [MAX_RETRIES])
  have h1 := h 1 (by norm_num [MAX_RETRIES])
  have h2 := h 2 (by norm_num [MAX_RETRIES])
  rw [call_llm_all_fail_trace prompt outcomes h0 h1 h2]
  exact ⟨rfl, rfl, rfl, rfl, rfl⟩

/-- Claim C2 witness: the amended claim evaluated on a run whose three
attempts all raise connection errors. -/
theorem call_llm_api_all_fail_witness :
    (call_llm_api "p" outcomesAllExc).result = none ∧
    (call_llm_api "p" outcomesAllExc).sleeps = [BASE_DELAY * 2 ^ 0, BASE_DELAY * 2 ^ 1] ∧
    (call_llm_api "p" outcomesAllExc).sleeps.sum = 3 ∧
    (call_llm_api "p" outcomesAllExc).logs.getLast? = some LogEvent.allRetriesFailed ∧
    (call_llm_api "p" outcomesAllExc).requests.length = 3 :=
  call_llm_api_all_fail "p" outcomesAllExc (fun _ _ => rfl)

/-- Claim C4: a 200 response on the first attempt whose JSON body lacks a
non-empty choices array makes call_llm_api return absence immediately:
exactly one POST request was issued, no backoff sleep occurred, the
malformed body was logged, and no further attempt used the two remaining
retry slots. -/
theorem call_llm_api_malformed_short_circuit (prompt text : String)
    (data : ResponseData) (outcomes : Nat → HttpOutcome)
    (h0 : outcomes 0 = HttpOutcome.response 200 text data)
    (hc : hasUsableChoices data = false) :
    call_llm_api prompt outcomes =
      ⟨none, [buildRequest prompt], [], [LogEvent.unexpectedFormat data]⟩ := by
  have e : call_llm_api prompt outcomes =
      callLoop (buildRequest prompt) outcomes (2 + 1) 0 := rfl
  rw [e, callLoop_malformed_step (buildRequest prompt) outcomes 2 0 text data h0 hc]

/-- Claim C4 witness: the short-circuit evaluated on a run whose first
attempt gets a 200 response with an empty choices array. -/
theorem call_llm_api_malformed_witness :
    call_llm_api "p4" outcomesMalformed =
      ⟨none, [buildRequest "p4"], [], [LogEvent.unexpectedFormat dataNoChoices]⟩ :=
  call_llm_api_malformed_short_circuit "p4" "ok" dataNoChoices outcomesMalformed rfl rfl

/-- Claim C8: every POST request call_llm_api issues goes to the configured
endpoint and carries exactly the fixed payload: the model name, a fixed
system message followed by the one user message holding the built prompt,
temperature 0.3 and max_tokens 500, under a Content-Type application/json
header and a bearer Authorization header built from the API key. -/
theorem call_llm_api_request_shape (prompt : String) (outcomes : Nat → HttpOutcome)
    (req : PostRequest) (hreq : req ∈ (call_llm_api prompt outcomes).requests) :
    req.url = API_ENDPOINT ∧
    req.payload.model = MODEL_NAME ∧
    req.payload.messages = [⟨"system", SYSTEM_PROMPT⟩, ⟨"user", prompt⟩] ∧
    req.payload.temperature = 0.3 ∧
    req.payload.max_tokens = 500 ∧
    req.headers = [("Content-Type", "application/json"),
                   ("Authorization", "Bearer " ++ API_KEY)] := by
  have hr : req = buildRequest prompt :=
    callLoop_requests_const (buildRequest prompt) outcomes MAX_RETRIES 0 req hreq
  subst hr
  exact ⟨rfl, rfl, rfl, rfl, rfl, rfl⟩

/-- Claim C8 witness: the request shape evaluated on the first request of a
concrete failing run. -/
theorem call_llm_api_request_shape_witness :
    (buildRequest "p5").payload.model = MODEL_NAME ∧
    (buildRequest "p5").payload.temperature = 0.3 ∧
    (buildRequest "p5").payload.max_tokens = 500 := by
  have hmem : buildRequest "p5" ∈ (call_llm_api "p5" outcomesAllExc).requests := by
    rw [call_llm_all_fail_trace "p5" outcomesAllExc rfl rfl rfl]
    simp
  have h := call_llm_api_request_shape "p5" outcomesAllExc (buildRequest "p5") hmem
  exact ⟨h.2.1, h.2.2.2.1, h.2.2.2.2.1⟩

/-- Helper: on files whose diff retrieval succeeds, the block accumulator
returns exactly one block per file with a non-empty filtered diff, in file
order, and no warnings. -/
theorem diffBlocks_ok_map (files : List (String × String)) :
    diffBlocks (files.map (fun p => ⟨p.1, Except.ok p.2⟩)) =
      ((files.filter (fun p => !(processDiff p.2).isEmpty)).map
        (fun p => "File: " ++ p.1 ++ "\n" ++ String.intercalate "\n" (processDiff p.2)),
       []) := by
  induction files with
  | nil => rfl
  | cons p rest ih =>
    simp only [List.map_cons, diffBlocks, ih, List.filter_cons]
    by_cases h : (processDiff p.2).isEmpty
    · simp [h]
    · simp [h]

/-- Claim C5: for every list of modified files (whose diffs are retrieved
without error), the Diff Bundle equals the blank-line-separated join of one
File:-headed block per file whose filtered diff is non-empty, in reported
order; the block count is at most the file count; and if no file yields
content the bundle is the empty string. -/
theorem get_git_diffs_bundle_spec (files : List (String × String)) :
    (get_git_diffs (files.map (fun p => ⟨p.1, Except.ok p.2⟩))).bundle = specBundle files ∧
    (files.filter (fun p => !(processDiff p.2).isEmpty)).length ≤ files.length ∧
    ((∀ p ∈ files, processDiff p.2 = []) →
      (get_git_diffs (files.map (fun p => ⟨p.1, Except.ok p.2⟩))).bundle = "") := by
  refine ⟨?_, List.length_filter_le _ _, ?_⟩
  · simp only [get_git_diffs, diffBlocks_ok_map, specBundle]
  · intro hall
    have hnil : files.filter (fun p => !(processDiff p.2).isEmpty) = [] := by
      rw [List.filter_eq_nil_iff]
      intro p hp
      simp [hall p hp]
    simp only [get_git_diffs, diffBlocks_ok_map, hnil, List.map_nil]
    rfl

/-- Claim C5 witness: a file whose diff has no retained lines produces the
empty bundle. -/
theorem get_git_diffs_bundle_spec_witness :
    (get_git_diffs [⟨"a.txt", Except.ok "no markers here"⟩]).bundle = "" := by
  refine (get_git_diffs_bundle_spec [("a.txt", "no markers here")]).2.2 ?_
  intro p hp
  rw [List.mem_singleton] at hp
  subst hp
  rfl

/-- Claim C6: main always exits with code 0, and when the path is not a
valid git repository it prints only the invalid-repository error, performs
no diff extraction, issues no network request and builds no prompt. -/
theorem main_exit_code_and_invalid_repo (env : Env) :
    (mainRun env).exitCode = 0 ∧
    (env.isRepo = false →
      mainRun env =
        ⟨[OutputEvent.line "Error: The specified path is not a valid git repository."],
         [], false, none, 0⟩) := by
  constructor
  · by_cases hrepo : is_git_repository env = false
    · simp [mainRun, hrepo]
    · by_cases hb : (get_git_diffs env.files).bundle = ""
      · simp [mainRun, hrepo, hb]
      · cases hres : (call_llm_api (buildUserPrompt (get_git_diffs env.files).bundle)
            env.outcomes).result with
        | none => simp [mainRun, hrepo, hb, hres]
        | some m => simp [mainRun, hrepo, hb, hres]
  · intro h
    simp [mainRun, is_git_repository, h]

/-- Claim C6 witness: the invalid-repository behaviour evaluated on a
concrete non-repository environment. -/
theorem main_invalid_repo_witness :
    mainRun envInvalid =
      ⟨[OutputEvent.line "Error: The specified path is not a valid git repository."],
       [], false, none, 0⟩ := by
  have h := (main_exit_code_and_invalid_repo envInvalid).2 rfl
  exact h

/-- Claim C7: when the repository is valid but the extracted Diff Bundle is
empty, main prints the no-changes message and terminates early with no
prompt built and no network request issued. -/
theorem main_no_changes (env : Env)
    (h1 : env.isRepo = true)
    (h2 : (get_git_diffs env.files).bundle = "") :
    mainRun env =
      ⟨(get_git_diffs env.files).warnings ++
         [OutputEvent.line "No changes detected in the repository."],
       [], true, none, 0⟩ := by
  simp [mainRun, is_git_repository, h1, h2]

/-- Claim C7 witness: the no-changes behaviour evaluated on a valid
repository with no modified files. -/
theorem main_no_changes_witness :
    mainRun envNoChanges =
      ⟨[OutputEvent.line "No changes detected in the repository."], [], true, none, 0⟩ :=
  main_no_changes envNoChanges rfl rfl

/-- Claim C9: when the first attempt gets a 200 response with a non-empty
choices array, call_llm_api returns the first choice's message content
trimmed of leading and trailing whitespace, and main renders that message
framed between two separator lines each consisting of exactly 50 equals
characters. -/
theorem main_render_success (env : Env) (text content : String)
    (cs : List Choice) (data : ResponseData)
    (h1 : env.isRepo = true)
    (h2 : (get_git_diffs env.files).bundle ≠ "")
    (h3 : env.outcomes 0 = HttpOutcome.response 200 text data)
    (h4 : data.choices = some (⟨⟨content⟩⟩ :: cs)) :
    (call_llm_api (buildUserPrompt (get_git_diffs env.files).bundle) env.outcomes).result =
        some (strTrim content) ∧
    (mainRun env).prints =
      (get_git_diffs env.files).warnings ++
        [OutputEvent.line "Suggested commit message:",
         OutputEvent.line eqSeparator,
         OutputEvent.line (strTrim content),
         OutputEvent.line eqSeparator] ∧
    eqSeparator.length = 50 ∧
    eqSeparator.toList = List.replicate 50 '=' := by
  have hcall : call_llm_api (buildUserPrompt (get_git_diffs env.files).bundle) env.outcomes =
      ⟨some (strTrim content),
       [buildRequest (buildUserPrompt (get_git_diffs env.files).bundle)], [], []⟩ := by
    have e : call_llm_api (buildUserPrompt (get_git_diffs env.files).bundle) env.outcomes =
        callLoop (buildRequest (buildUserPrompt (get_git_diffs env.files).bundle))
          env.outcomes (2 + 1) 0 := rfl
    rw [e, callLoop_success_step _ _ 2 0 text data ⟨⟨content⟩⟩ cs h3 h4]
  refine ⟨by rw [hcall], ?_, rfl, rfl⟩
  simp [mainRun, is_git_repository, h1, h2, hcall]

/-- Claim C9 witness: a run whose 200 response carries padded content
renders the trimmed message between the separators. -/
theorem main_render_success_witness :
    (mainRun envSuccess).prints =
      [OutputEvent.line "Suggested commit message:",
       OutputEvent.line eqSeparator,
       OutputEvent.line "feat: add X",
       OutputEvent.line eqSeparator] := by
  have h := (main_render_success envSuccess "ok" "  feat: add X  " [] dataFeat rfl
    (by decide) rfl rfl).2.1
  rw [h]
  rfl

/-- Helper: in the refined model, an attempt whose outcome is a retry
failure prints its error, sleeps exactly when more attempts remain, issues
its one POST and otherwise behaves as the rest of the loop. -/
theorem callLoopE_retry_step (req : PostRequest) (outcomes : Nat → HttpOutcomeE)
    (fuel attempt : Nat) (hf : isRetryFailureE (outcomes attempt) = true) :
    callLoopE req outcomes (fuel + 1) attempt =
      ⟨(callLoopE req outcomes fuel (attempt + 1)).result,
       req :: (callLoopE req outcomes fuel (attempt + 1)).requests,
       (if attempt < MAX_RETRIES - 1 then [BASE_DELAY * 2 ^ attempt] else []) ++
         (callLoopE req outcomes fuel (attempt + 1)).sleeps,
       failureEventE attempt (outcomes attempt) ::
         ((if attempt < MAX_RETRIES - 1 then
             [LogEventE.retrying (BASE_DELAY * 2 ^ attempt)]
           else []) ++
           (callLoopE req outcomes fuel (attempt + 1)).logs)⟩ := by
  cases h : outcomes attempt with
  | reqException m =>
    by_cases hlt : attempt < MAX_RETRIES - 1 <;>
      simp [callLoopE, h, failureEventE, hlt]
  | response s tx d =>
    rw [h] at hf
    simp only [isRetryFailureE, bne_iff_ne, ne_eq] at hf
    by_cases hlt : attempt < MAX_RETRIES - 1 <;>
      simp [callLoopE, h, failureEventE, hlt, hf]

/-- Helper: in the refined model, an attempt whose 200 body has a non-empty
choices array whose first element lacks the message.content path makes the
lookup of src/main.py line 119 raise at once: one POST, no sleep, no
further attempt. -/
theorem callLoopE_raise_step (req : PostRequest) (outcomes : Nat → HttpOutcomeE)
    (fuel attempt : Nat) (text : String) (data : ResponseDataE)
    (c : ChoiceE) (cs : List ChoiceE) (e : String)
    (h : outcomes attempt = HttpOutcomeE.response 200 text data)
    (hc : data.choices = some (c :: cs))
    (he : extractContent c = Except.error e) :
    callLoopE req outcomes (fuel + 1) attempt =
      ⟨CallResultE.raises e, [req], [], []⟩ := by
  simp [callLoopE, h, hc, he]

/-- Helper: in the refined model, the full trace of a run whose three
attempts are all retry failures: three POSTs, sleeps of 1s and 2s after the
first two attempts only, the terminal failure print, and a return of
none. -/
theorem call_llm_apiE_all_fail_trace (prompt : String) (outcomes : Nat → HttpOutcomeE)
    (h0 : isRetryFailureE (outcomes 0) = true)
    (h1 : isRetryFailureE (outcomes 1) = true)
    (h2 : isRetryFailureE (outcomes 2) = true) :
    call_llm_apiE prompt outcomes =
      ⟨CallResultE.returns none,
       [buildRequest prompt, buildRequest prompt, buildRequest prompt],
       [1, 2],
       [failureEventE 0 (outcomes 0), LogEventE.retrying 1,
        failureEventE 1 (outcomes 1), LogEventE.retrying 2,
        failureEventE 2 (outcomes 2), LogEventE.allRetriesFailed]⟩ := by
  have e : call_llm_apiE prompt outcomes =
      callLoopE (buildRequest prompt) outcomes (2 + 1) 0 := rfl
  rw [e, callLoopE_retry_step _ _ 2 0 h0]
  have e1 : callLoopE (buildRequest prompt) outcomes 2 (0 + 1) =
      callLoopE (buildRequest prompt) outcomes (1 + 1) 1 := rfl
  rw [e1, callLoopE_retry_step _ _ 1 1 h1]
  have e2 : callLoopE (buildRequest prompt) outcomes 1 (1 + 1) =
      callLoopE (buildRequest prompt) outcomes (0 + 1) 2 := rfl
  rw [e2, callLoopE_retry_step _ _ 0 2 h2]
  have e3 : callLoopE (buildRequest prompt) outcomes 0 (2 + 1) =
      ⟨CallResultE.returns none, [], [], [LogEventE.allRetriesFailed]⟩ := rfl
  rw [e3]
  norm_num [MAX_RETRIES, BASE_DELAY]

/-- Helper: when no outcome reachable by the loop can make line 119 raise,
the refined loop returns normally (with some message or none). -/
theorem callLoopE_ok_returns (req : PostRequest) (outcomes : Nat → HttpOutcomeE) :
    ∀ fuel attempt, (∀ i, i < attempt + fuel → okOutcome (outcomes i) = true) →
      ∃ v, (callLoopE req outcomes fuel attempt).result = CallResultE.returns v := by
  intro fuel
  induction fuel with
  | zero =>
    intro attempt h
    exact ⟨none, rfl⟩
  | succ n ih =>
    intro attempt h
    have hok : okOutcome (outcomes attempt) = true := h attempt (by omega)
    cases ho : outcomes attempt with
    | reqException m =>
      obtain ⟨v, hv⟩ := ih (attempt + 1) (fun i hi => h i (by omega))
      refine ⟨v, ?_⟩
      by_cases hlt : attempt < MAX_RETRIES - 1 <;>
        simpa [callLoopE, ho, hlt] using hv
    | response s text data =>
      by_cases hs : s = 200
      · subst hs
        rw [ho] at hok
        cases hch : data.choices with
        | none => exact ⟨none, by simp [callLoopE, ho, hch]⟩
        | some cs =>
          cases cs with
          | nil => exact ⟨none, by simp [callLoopE, ho, hch]⟩
          | cons c cs2 =>
            cases hec : extractContent c with
            | ok s2 => exact ⟨some (strTrim s2), by simp [callLoopE, ho, hch, hec]⟩
            | error e2 => simp [okOutcome, hch, hec] at hok
      · obtain ⟨v, hv⟩ := ih (attempt + 1) (fun i hi => h i (by omega))
        refine ⟨v, ?_⟩
        by_cases hlt : attempt < MAX_RETRIES - 1 <;>
          simpa [callLoopE, ho, hs, hlt] using hv

/-- Helper: on outcomes representable in the unrefined model — every 200
body's choices elements carry the message.content path — the refined loop
agrees with callLoop: same optional return value, same requests, sleeps
and prints. -/
theorem callLoopE_refines (req : PostRequest) (outcomes : Nat → HttpOutcome) :
    ∀ fuel attempt,
      callLoopE req (fun i => toOutcomeE (outcomes i)) fuel attempt =
        ⟨CallResultE.returns (callLoop req outcomes fuel attempt).result,
         (callLoop req outcomes fuel attempt).requests,
         (callLoop req outcomes fuel attempt).sleeps,
         List.map toLogE (callLoop req outcomes fuel attempt).logs⟩ := by
  intro fuel
  induction fuel with
  | zero =>
    intro attempt
    rfl
  | succ n ih =>
    intro attempt
    cases ho : outcomes attempt with
    | reqException m =>
      have hsc : toOutcomeE (HttpOutcome.reqException m) =
          HttpOutcomeE.reqException m := rfl
      by_cases hlt : attempt < MAX_RETRIES - 1 <;>
        simp [callLoopE, callLoop, ho, hsc, hlt, ih, toLogE]
    | response s text data =>
      have hsc : toOutcomeE (HttpOutcome.response s text data) =
          HttpOutcomeE.response s text (toDataE data) := rfl
      by_cases hs : s = 200
      · subst hs
        cases hch : data.choices with
        | none =>
          have hdc : (toDataE data).choices = none := by
            simp [toDataE, hch]
          simp [callLoopE, callLoop, ho, hsc, hdc, hch, toLogE]
        | some cs =>
          cases cs with
          | nil =>
            have hdc : (toDataE data).choices = some [] := by
              simp [toDataE, hch]
            simp [callLoopE, callLoop, ho, hsc, hdc, hch, toLogE]
          | cons c cs2 =>
            have hdc : (toDataE data).choices =
                some (toChoiceE c :: List.map toChoiceE cs2) := by
              simp [toDataE, hch]
            have hex : extractContent (toChoiceE c) =
                Except.ok c.message.content := rfl
            simp [callLoopE, callLoop, ho, hsc, hdc, hch, hex]
      · by_cases hlt : attempt < MAX_RETRIES - 1 <;>
          simp [callLoopE, callLoop, ho, hsc, hs, hlt, ih, toLogE]

/-- Claim C3 counterexample: a 200 response whose choices array holds one
empty object passes the test of src/main.py line 118, and the lookup of
line 119 then raises KeyError past call_llm_api — the except clause of line
126 catches only RequestException — so on this concrete run the call
neither returns a message string nor absence. -/
theorem call_llm_api_raises_counterexample :
    (call_llm_apiE "p6" outcomesBadChoice).result =
        CallResultE.raises "KeyError: message" ∧
    ¬ ((call_llm_apiE "p6" outcomesBadChoice).result = CallResultE.returns none ∨
        ∃ m, (call_llm_apiE "p6" outcomesBadChoice).result =
          CallResultE.returns (some m)) := by
  have e : (call_llm_apiE "p6" outcomesBadChoice).result =
      CallResultE.raises "KeyError: message" := rfl
  refine ⟨e, ?_⟩
  intro h
  rcases h with h | ⟨m, hm⟩
  · rw [e] at h
    cases h
  · rw [e] at hm
    cases hm

/-- Claim C3 (amended): call_llm_api never raises past its own boundary for
network-level exceptions and non-200 statuses — each consumes one POST
attempt and triggers the same backoff — and exhausting all attempts yields
absence; when additionally every 200 response reachable by the loop has a
choices value that is absent, empty, or whose first element carries the
message.content path, the call resolves to a message string or absence; but
a 200 response whose non-empty choices array starts with an element lacking
that path makes line 119 raise out of the function at once, caught only by
the top-level handler of main. -/
theorem call_llm_api_boundary (prompt : String) (outcomes : Nat → HttpOutcomeE) :
    ((∀ i, i < MAX_RETRIES → okOutcome (outcomes i) = true) →
      ∃ v, (call_llm_apiE prompt outcomes).result = CallResultE.returns v) ∧
    (∀ req fuel attempt, isRetryFailureE (outcomes attempt) = true →
      (callLoopE req outcomes (fuel + 1) attempt).result =
          (callLoopE req outcomes fuel (attempt + 1)).result ∧
        (callLoopE req outcomes (fuel + 1) attempt).requests.length =
          (callLoopE req outcomes fuel (attempt + 1)).requests.length + 1 ∧
        (callLoopE req outcomes (fuel + 1) attempt).sleeps =
          (if attempt < MAX_RETRIES - 1 then [BASE_DELAY * 2 ^ attempt] else []) ++
            (callLoopE req outcomes fuel (attempt + 1)).sleeps) ∧
    ((∀ i, i < MAX_RETRIES → isRetryFailureE (outcomes i) = true) →
      (call_llm_apiE prompt outcomes).result = CallResultE.returns none) ∧
    (∀ req fuel attempt text data c cs e,
      outcomes attempt = HttpOutcomeE.response 200 text data →
      data.choices = some (c :: cs) →
      extractContent c = Except.error e →
      callLoopE req outcomes (fuel + 1) attempt =
        ⟨CallResultE.raises e, [req], [], []⟩) := by
  refine ⟨?_, ?_, ?_, ?_⟩
  · intro h
    exact callLoopE_ok_returns (buildRequest prompt) outcomes MAX_RETRIES 0
      (fun i hi => h i (by omega))
  · intro req fuel attempt hf
    rw [callLoopE_retry_step req outcomes fuel attempt hf]
    exact ⟨rfl, by simp, rfl⟩
  · intro h
    rw [call_llm_apiE_all_fail_trace prompt outcomes
      (h 0 (by norm_num [MAX_RETRIES])) (h 1 (by norm_num [MAX_RETRIES]))
      (h 2 (by norm_num [MAX_RETRIES]))]
  · intro req fuel attempt text data c cs e h hc he
    exact callLoopE_raise_step req outcomes fuel attempt text data c cs e h hc he

/-- Claim C3 witness: the safe-return part of the boundary theorem
evaluated on a run whose attempts all time out. -/
theorem call_llm_api_boundary_witness :
    ∃ v, (call_llm_apiE "q" outcomesDownE).result = CallResultE.returns v :=
  (call_llm_api_boundary "q" outcomesDownE).1 (fun _ _ => rfl)
